import Mathlib

/-!
Verification of the sound plugin (`platypush/plugins/sound.py`).

The Python code is shallowly embedded: exact arithmetic on the values the
code manipulates is modelled with `ℚ` (for the computable control-flow and
sample-count layer) and `ℝ` (for the transcendental note/frequency and
sine-wave layer); Python `int()` truncation toward zero is modelled
explicitly; fallible constructors return `Except`; the stateful plugin
operations are modelled as explicit state-passing functions over an
`EngineState` record mirroring the mutable fields of the plugin.
-/

namespace Platypush

/-- Python `int()` on a rational: truncation toward zero. -/
def pyIntQ (q : ℚ) : ℤ := if 0 ≤ q then ⌊q⌋ else ⌈q⌉

/-- Python `int()` on a real: truncation toward zero. -/
noncomputable def pyInt (x : ℝ) : ℤ := if 0 ≤ x then ⌊x⌋ else ⌈x⌉

/-- Embeds `Sound.note_to_freq`: `(2.0 ** ((midi_note - 69) / 12.0)) * A_frequency`. -/
noncomputable def Sound.note_to_freq (midi_note : ℤ) (A_frequency : ℝ) : ℝ :=
  (2 : ℝ) ^ (((midi_note : ℝ) - 69) / 12) * A_frequency

/-- Embeds `Sound.freq_to_note`:
`int(12.0 * math.log(frequency / A_frequency, 2) + 69)`. -/
noncomputable def Sound.freq_to_note (frequency : ℝ) (A_frequency : ℝ) : ℤ :=
  pyInt (12 * Real.logb 2 (frequency / A_frequency) + 69)

lemma pyInt_intCast (n : ℤ) : pyInt (n : ℝ) = n := by
  unfold pyInt
  split <;> simp

lemma note_to_freq_div_A (n : ℤ) :
    Sound.note_to_freq n 440 / 440 = (2 : ℝ) ^ (((n : ℝ) - 69) / 12) := by
  unfold Sound.note_to_freq
  rw [mul_div_assoc]
  norm_num

/-- C1: for every MIDI note `n`, converting the note to a frequency and back with
the default A4 = 440 Hz reference is the identity:
`Sound.freq_to_note (Sound.note_to_freq n) = n`; moreover the exact quantity
`69 + 12*log2(frequency/440)` rounds to `n` as well, so on this domain the
truncation in the code agrees with rounding to the nearest integer. -/
theorem freq_note_roundtrip (n : ℤ) :
    Sound.freq_to_note (Sound.note_to_freq n 440) 440 = n ∧
    round ((69 : ℝ) + 12 * Real.logb 2 (Sound.note_to_freq n 440 / 440)) = n := by
  have hlog : Real.logb 2 (Sound.note_to_freq n 440 / 440) = ((n : ℝ) - 69) / 12 := by
    rw [note_to_freq_div_A]
    exact Real.logb_rpow (by norm_num) (by norm_num)
  constructor
  · unfold Sound.freq_to_note
    rw [hlog]
    have h : 12 * (((n : ℝ) - 69) / 12) + 69 = (n : ℝ) := by ring
    rw [h, pyInt_intCast]
  · rw [hlog]
    have h : (69 : ℝ) + 12 * (((n : ℝ) - 69) / 12) = (n : ℝ) := by ring
    rw [h, round_intCast]

/-- A constructed `Sound`. The Python constructor stores both `midi_note` and
`frequency`, deriving the missing one; since the derived value is a
transcendental function of the given one, the embedding stores the
authoritative input (`source`) and exposes the derived fields as functions. -/
structure Sound where
  source : ℤ ⊕ ℚ
  gain : ℚ
  duration : Option ℚ
  A_frequency : ℚ
deriving DecidableEq

/-- Python truthiness of an optional integer argument: `None` and `0` are falsy. -/
def truthyOptInt : Option ℤ → Bool
  | none => false
  | some n => n != 0

/-- Python truthiness of an optional float argument: `None` and `0.0` are falsy. -/
def truthyOptQ : Option ℚ → Bool
  | none => false
  | some q => q != 0

/-- Embeds `Sound.__init__`: rejects when both `midi_note` and `frequency` are
truthy, keeps the given one otherwise, rejects when neither is truthy. -/
def mkSound (midi_note : Option ℤ) (frequency : Option ℚ) (gain : ℚ)
    (duration : Option ℚ) (A_frequency : ℚ) : Except String Sound :=
  if truthyOptInt midi_note && truthyOptQ frequency then
    Except.error "Please specify either a MIDI note or a base frequency"
  else if truthyOptInt midi_note then
    Except.ok { source := Sum.inl (midi_note.getD 0), gain := gain,
                duration := duration, A_frequency := A_frequency }
  else if truthyOptQ frequency then
    Except.ok { source := Sum.inr (frequency.getD 0), gain := gain,
                duration := duration, A_frequency := A_frequency }
  else
    Except.error "Please specify either a MIDI note or a base frequency"

/-- The `frequency` field of a constructed `Sound`: as given, or derived via
`note_to_freq`. -/
noncomputable def Sound.frequency (s : Sound) : ℝ :=
  match s.source with
  | Sum.inl n => Sound.note_to_freq n (s.A_frequency : ℝ)
  | Sum.inr f => (f : ℝ)

/-- The `midi_note` field of a constructed `Sound`: as given, or derived via
`freq_to_note`. -/
noncomputable def Sound.midi_note (s : Sound) : ℤ :=
  match s.source with
  | Sum.inl n => n
  | Sum.inr f => Sound.freq_to_note (f : ℝ) (s.A_frequency : ℝ)

/-- C9: constructing a `Sound` with `midi_note=0` and no frequency is rejected,
and likewise `frequency=0.0`; the truthiness test makes the value `0`
indistinguishable from an absent argument. -/
theorem sound_midi_zero_rejected :
    mkSound (some 0) none 1 none 440 =
      Except.error "Please specify either a MIDI note or a base frequency" ∧
    mkSound none (some 0) 1 none 440 =
      Except.error "Please specify either a MIDI note or a base frequency" ∧
    mkSound (some 0) none 1 none 440 = mkSound none none 1 none 440 :=
  ⟨rfl, rfl, rfl⟩

/-- Embeds `numpy.linspace(a, b, n)` in exact arithmetic: `n` nodes starting at
`a` with spacing `(b - a) / (n - 1)`, the last node being `b` when `n ≥ 2`
(the numpy default `endpoint=True`). For `n = 1` the division by zero vanishes
and the single node is `a`, matching numpy. -/
def linspace (a b : ℚ) (n : ℕ) : List ℚ :=
  (List.range n).map fun i : ℕ => a + (i : ℚ) * ((b - a) / ((n : ℚ) - 1))

/-- The sample count `int((t_end - t_start) * samplerate)` used by `get_wave`. -/
def num_samples (t_start t_end : ℚ) (samplerate : ℕ) : ℕ :=
  (pyIntQ ((t_end - t_start) * (samplerate : ℚ))).toNat

/-- Embeds `Sound.get_wave`:
`x = np.linspace(t_start, t_end, int((t_end-t_start)*samplerate))` followed by
`gain * np.sin(2 * np.pi * frequency * x)`. -/
noncomputable def Sound.get_wave (s : Sound) (t_start t_end : ℚ)
    (samplerate : ℕ) : List ℝ :=
  (linspace t_start t_end (num_samples t_start t_end samplerate)).map fun x : ℚ =>
    (s.gain : ℝ) * Real.sin (2 * Real.pi * s.frequency * (x : ℝ))

/-- A concrete 440 Hz sound used in the `get_wave` theorems. -/
def soundA : Sound :=
  { source := Sum.inr 440, gain := 1, duration := none, A_frequency := 440 }

/-- C7 counterexample: for `t_start = 0`, `t_end = 1.07`, `samplerate = 10`,
`get_wave` returns `int(10.7) = 10` samples, not `round(10.7) = 11` as the
length formula of the claim demands. -/
theorem get_wave_length_not_rounded :
    (soundA.get_wave 0 (107 / 100) 10).length = 10 ∧
    round (((107 : ℚ) / 100 - 0) * 10) = (11 : ℤ) ∧ (10 : ℕ) ≠ 11 := by
  refine ⟨?_, ?_, by decide⟩
  · unfold Sound.get_wave linspace
    rw [List.length_map, List.length_map, List.length_range]
    norm_num [num_samples, pyIntQ]
    decide
  · norm_num [round_eq]

/-- C7 amended: `get_wave` returns `int((t_end - t_start) * samplerate)` samples
(truncation, not rounding), and the sample points are the `numpy.linspace`
nodes over the closed interval `[t_start, t_end]` — spacing
`(t_end - t_start) / (n - 1)` with the endpoint included — the i-th sample
value being `gain * sin(2*pi*frequency*t_i)`. -/
theorem get_wave_samples (s : Sound) (t_start t_end : ℚ) (samplerate : ℕ)
    (h : t_start ≤ t_end) :
    (s.get_wave t_start t_end samplerate).length =
      (pyIntQ ((t_end - t_start) * (samplerate : ℚ))).toNat ∧
    s.get_wave t_start t_end samplerate =
      (List.range (num_samples t_start t_end samplerate)).map fun i : ℕ =>
        (s.gain : ℝ) * Real.sin (2 * Real.pi * s.frequency *
          ((t_start : ℝ) + (i : ℝ) * (((t_end : ℝ) - (t_start : ℝ)) /
            ((num_samples t_start t_end samplerate : ℝ) - 1)))) := by
  constructor
  · unfold Sound.get_wave linspace num_samples
    rw [List.length_map, List.length_map, List.length_range]
  · unfold Sound.get_wave linspace
    rw [List.map_map]
    refine List.map_congr_left ?_
    intro i _
    simp only [Function.comp_apply]
    push_cast
    ring_nf

/-- C7 witness: the amended statement instantiated at the concrete sound
`soundA`, `t_start = 0`, `t_end = 1`, `samplerate = 4`. -/
theorem get_wave_samples_witness :
    (0 : ℚ) ≤ 1 ∧
    ((soundA.get_wave 0 1 4).length = (pyIntQ ((1 - 0) * (4 : ℚ))).toNat ∧
    soundA.get_wave 0 1 4 =
      (List.range (num_samples 0 1 4)).map fun i : ℕ =>
        ((soundA.gain : ℝ) * Real.sin (2 * Real.pi * soundA.frequency *
          (((0 : ℚ) : ℝ) + (i : ℝ) * ((((1 : ℚ) : ℝ) - ((0 : ℚ) : ℝ)) /
            ((num_samples 0 1 4 : ℝ) - 1)))))) :=
  ⟨by norm_num, get_wave_samples soundA 0 1 4 (by norm_num)⟩

/-- The `PlaybackState` enum. -/
inductive PlaybackState
  | STOPPED
  | PLAYING
  | PAUSED
deriving DecidableEq

/-- The `RecordingState` enum. -/
inductive RecordingState
  | STOPPED
  | RECORDING
  | PAUSED
deriving DecidableEq

/-- The mutable fields of `SoundPlugin` touched by the modelled operations,
plus the open/closed status of the per-session source and sink streams. -/
structure EngineState where
  playback : PlaybackState
  recording : RecordingState
  playbackPausedChanged : Bool
  recordingPausedChanged : Bool
  fileOpen : Bool
  sinkOpen : Bool
deriving DecidableEq

/-- Embeds `SoundPlugin.start_playback`. -/
def start_playback (s : EngineState) : EngineState :=
  { s with playback := PlaybackState.PLAYING }

/-- Embeds `SoundPlugin.stop_playback`: sets the state to `STOPPED` under the
lock and logs; it touches no other field. -/
def stop_playback (s : EngineState) : EngineState :=
  { s with playback := PlaybackState.STOPPED }

/-- Embeds `SoundPlugin.pause_playback`: toggles `PLAYING`/`PAUSED` and sets the
paused-changed event, returning early (no event) from `STOPPED`. -/
def pause_playback (s : EngineState) : EngineState :=
  match s.playback with
  | PlaybackState.PAUSED =>
      { s with playback := PlaybackState.PLAYING, playbackPausedChanged := true }
  | PlaybackState.PLAYING =>
      { s with playback := PlaybackState.PAUSED, playbackPausedChanged := true }
  | PlaybackState.STOPPED => s

/-- Embeds `SoundPlugin.start_recording`. -/
def start_recording (s : EngineState) : EngineState :=
  { s with recording := RecordingState.RECORDING }

/-- Embeds `SoundPlugin.stop_recording`: sets the state to `STOPPED` under the
lock and logs; it touches no other field. -/
def stop_recording (s : EngineState) : EngineState :=
  { s with recording := RecordingState.STOPPED }

/-- Embeds `SoundPlugin.pause_recording`: toggles `RECORDING`/`PAUSED` and sets
the paused-changed event, returning early (no event) from `STOPPED`. -/
def pause_recording (s : EngineState) : EngineState :=
  match s.recording with
  | RecordingState.PAUSED =>
      { s with recording := RecordingState.RECORDING, recordingPausedChanged := true }
  | RecordingState.RECORDING =>
      { s with recording := RecordingState.PAUSED, recordingPausedChanged := true }
  | RecordingState.STOPPED => s

/-- A state with both machines paused and both paused-changed events cleared:
the situation of a session blocked in a paused wait. -/
def pausedEngineState : EngineState :=
  { playback := PlaybackState.PAUSED, recording := RecordingState.PAUSED,
    playbackPausedChanged := false, recordingPausedChanged := false,
    fileOpen := false, sinkOpen := false }

/-- C3: `stop_playback` and `stop_recording` set their state to `STOPPED` but do
NOT set the paused-changed event, so a thread blocked in a paused wait is not
released — the code diverges from the claim, which requires the pause
condition to be signalled. -/
theorem stop_leaves_pause_event_clear :
    (stop_playback pausedEngineState).playback = PlaybackState.STOPPED ∧
    (stop_playback pausedEngineState).playbackPausedChanged = false ∧
    (stop_recording pausedEngineState).recording = RecordingState.STOPPED ∧
    (stop_recording pausedEngineState).recordingPausedChanged = false :=
  ⟨rfl, rfl, rfl, rfl⟩

/-- A sound descriptor as passed to `play` in the `sounds` list (the JSON wire
format: optional MIDI note or frequency, gain, optional duration). -/
structure SoundDesc where
  midi_note : Option ℤ
  frequency : Option ℚ
  gain : ℚ
  duration : Option ℚ
deriving DecidableEq

/-- The source arguments of `play`. -/
structure PlayArgs where
  file : Option String
  sounds : Option (List SoundDesc)
deriving DecidableEq

/-- Python truthiness of the `file` argument: `None` and the empty string are
falsy. -/
def truthyFile : Option String → Bool
  | none => false
  | some f => !f.isEmpty

/-- Python truthiness of the `sounds` argument: `None` and the empty list are
falsy. -/
def truthySounds : Option (List SoundDesc) → Bool
  | none => false
  | some l => !l.isEmpty

/-- Embeds the prelude of `play` (the stop-before-playing check): when the
playback state is not `STOPPED` and — only then — a file was given, the prior
session is stopped and the call sleeps for its teardown. Returns the resulting
state and whether the prior session was stopped. -/
def play_prelude (a : PlayArgs) (s : EngineState) : EngineState × Bool :=
  if s.playback ≠ PlaybackState.STOPPED then
    if truthyFile a.file then (stop_playback s, true) else (s, false)
  else (s, false)

/-- The outcome of a `play` invocation. -/
inductive PlayOutcome
  | invalidArgument
  | normal
  | error
deriving DecidableEq, BEq

/-- Embeds the `finally` block of `play`: close the source file if it is open,
then `stop_playback`. -/
def play_finally (s : EngineState) : EngineState :=
  stop_playback { s with fileOpen := false }

/-- Embeds the control-flow skeleton of `play`: argument validation (which
raises before any state is touched), the stop-before-playing prelude, the
clearing of the paused-changed event, then an arbitrary session body (the
`try` block — it may open streams, change state, raise) followed by the
`finally` block. The body returns its resulting state and whether it raised. -/
def play_model (a : PlayArgs) (body : EngineState → EngineState × Bool)
    (s : EngineState) : EngineState × PlayOutcome :=
  if !truthyFile a.file && !truthySounds a.sounds then
    (s, PlayOutcome.invalidArgument)
  else
    let s1 := (play_prelude a s).1
    let s2 := { s1 with playbackPausedChanged := false }
    let r := body s2
    (play_finally r.1, if r.2 then PlayOutcome.error else PlayOutcome.normal)

/-- Embeds the control-flow skeleton of `record`: the unconditional
stop-before-recording prelude, clearing the paused-changed event, then the
session body inside the `with` block of the sink (which closes the sink on every
exit) and the `finally` block (`stop_recording`). -/
def record_model (body : EngineState → EngineState × Bool)
    (s : EngineState) : EngineState × Bool :=
  let s1 := if s.recording ≠ RecordingState.STOPPED then stop_recording s else s
  let s2 := { s1 with recordingPausedChanged := false }
  let r := body { s2 with sinkOpen := true }
  let s3 := { r.1 with sinkOpen := false }
  (stop_recording s3, r.2)

/-- Embeds the control-flow skeleton of `recordplay`: both stop-before preludes,
clearing both paused-changed events, then the session body followed by the
`finally` block (`stop_playback` and `stop_recording`). -/
def recordplay_model (body : EngineState → EngineState × Bool)
    (s : EngineState) : EngineState × Bool :=
  let s1 := if s.playback ≠ PlaybackState.STOPPED then stop_playback s else s
  let s2 := if s1.recording ≠ RecordingState.STOPPED then stop_recording s1 else s1
  let s3 := { s2 with playbackPausedChanged := false, recordingPausedChanged := false }
  let r := body s3
  (stop_recording (stop_playback r.1), r.2)

/-- A 440 Hz, one-second descriptor. -/
def soundDescA : SoundDesc :=
  { midi_note := some 69, frequency := none, gain := 1, duration := some 1 }

/-- A state with a playback session currently active. -/
def playingState : EngineState :=
  { playback := PlaybackState.PLAYING, recording := RecordingState.STOPPED,
    playbackPausedChanged := false, recordingPausedChanged := false,
    fileOpen := false, sinkOpen := false }

/-- A fully idle state. -/
def stoppedState : EngineState :=
  { playback := PlaybackState.STOPPED, recording := RecordingState.STOPPED,
    playbackPausedChanged := false, recordingPausedChanged := false,
    fileOpen := false, sinkOpen := false }

/-- A session body that does nothing and does not raise. -/
def idBody : EngineState → EngineState × Bool := fun s => (s, false)

/-- C2 counterexample: `play` called with a sounds list (no file) while the
playback state is `PLAYING` does NOT stop the prior session — the prior
session is stopped only in the file branch, contradicting the wording
"regardless of whether the new source is a file or a list of sound
descriptors". -/
theorem play_sounds_mode_skips_stop :
    (play_prelude { file := none, sounds := some [soundDescA] } playingState).2
      = false ∧
    ((play_prelude { file := none, sounds := some [soundDescA] }
        playingState).1).playback = PlaybackState.PLAYING :=
  ⟨rfl, rfl⟩

/-- C2 amended: the prior session is stopped exactly when the playback state is
not `STOPPED` and the new source is a (truthy) file; consequently the state
seen by the new session is `STOPPED` whenever a file is given, and is the
unchanged prior state whenever only sounds are given. -/
theorem play_prelude_stops_only_for_file (a : PlayArgs) (s : EngineState) :
    (play_prelude a s).2 =
      (decide (s.playback ≠ PlaybackState.STOPPED) && truthyFile a.file) ∧
    ((play_prelude a s).1).playback =
      (if truthyFile a.file then PlaybackState.STOPPED else s.playback) ∧
    ((play_prelude a s).1).recording = s.recording := by
  unfold play_prelude stop_playback
  cases hp : s.playback <;> cases hf : truthyFile a.file <;>
    simp [hp, hf]

/-- C5 counterexample: `play` given BOTH a file and a sounds list does not fail
with an invalid-argument error — the validation only rejects the case where
neither is given. -/
theorem play_both_sources_accepted :
    (play_model { file := some "song.wav", sounds := some [soundDescA] }
      idBody stoppedState).2 ≠ PlayOutcome.invalidArgument := by
  decide

/-- C5 amended: `play` fails fast with the invalid-argument error, leaving the
state untouched, exactly when neither `file` nor `sounds` is (truthily) given;
when both are given no error is raised and the call proceeds. -/
theorem play_requires_some_source (a : PlayArgs)
    (body : EngineState → EngineState × Bool) (s : EngineState) :
    ((play_model a body s).2 = PlayOutcome.invalidArgument ↔
      truthyFile a.file = false ∧ truthySounds a.sounds = false) ∧
    play_model { file := none, sounds := none } body s =
      (s, PlayOutcome.invalidArgument) := by
  constructor
  · unfold play_model
    cases hf : truthyFile a.file <;> cases hs : truthySounds a.sounds <;>
      cases h2 : (body { (play_prelude a s).1 with
          playbackPausedChanged := false }).2 <;>
        simp [hf, hs, h2]
  · rfl

/-- C6 counterexample: `play` invoked with neither a file nor sounds while the
playback state is `PLAYING` raises the invalid-argument error before the
`try`/`finally` block, so the state machine is not forced to `STOPPED` and the
operation exits with the state still active. -/
theorem play_invalid_args_leaves_active :
    (play_model { file := none, sounds := none } idBody playingState).2
      = PlayOutcome.invalidArgument ∧
    ((play_model { file := none, sounds := none } idBody
        playingState).1).playback = PlaybackState.PLAYING :=
  ⟨rfl, rfl⟩

/-- C6 amended: on every exit path that passes argument validation and enters
the session body — normal completion or any raise, for every body behavior —
`play` forces the playback state to `STOPPED` and closes the source file,
`record` forces the recording state to `STOPPED` and closes the sink, and
`recordplay` forces both states to `STOPPED`; only the failed-validation exit
of `play` (which precedes the session) leaves the state untouched. -/
theorem sessions_settle_stopped (a : PlayArgs)
    (body body2 body3 : EngineState → EngineState × Bool)
    (s s2 s3 : EngineState)
    (h : truthyFile a.file = true ∨ truthySounds a.sounds = true) :
    (((play_model a body s).1).playback = PlaybackState.STOPPED ∧
      ((play_model a body s).1).fileOpen = false) ∧
    (((record_model body2 s2).1).recording = RecordingState.STOPPED ∧
      ((record_model body2 s2).1).sinkOpen = false) ∧
    (((recordplay_model body3 s3).1).playback = PlaybackState.STOPPED ∧
      ((recordplay_model body3 s3).1).recording = RecordingState.STOPPED) := by
  refine ⟨?_, ⟨rfl, rfl⟩, ⟨rfl, rfl⟩⟩
  unfold play_model
  have hcond : (!truthyFile a.file && !truthySounds a.sounds) = false := by
    rcases h with h | h <;> simp [h]
  rw [hcond]
  exact ⟨rfl, rfl⟩

/-- C6 witness: the amended statement instantiated with a concrete file
argument, identity bodies and concrete states. -/
theorem sessions_settle_stopped_witness :
    (truthyFile (some "f.wav") = true ∨
      truthySounds (none : Option (List SoundDesc)) = true) ∧
    ((((play_model { file := some "f.wav", sounds := none } idBody
          stoppedState).1).playback = PlaybackState.STOPPED ∧
      (((play_model { file := some "f.wav", sounds := none } idBody
          stoppedState).1)).fileOpen = false) ∧
    (((record_model idBody stoppedState).1).recording = RecordingState.STOPPED ∧
      ((record_model idBody stoppedState).1).sinkOpen = false) ∧
    (((recordplay_model idBody stoppedState).1).playback = PlaybackState.STOPPED ∧
      ((recordplay_model idBody stoppedState).1).recording
        = RecordingState.STOPPED)) :=
  ⟨Or.inl rfl,
   sessions_settle_stopped { file := some "f.wav", sounds := none }
     idBody idBody idBody stoppedState stoppedState stoppedState (Or.inl rfl)⟩

/-- What the playback audio callback did on one invocation. -/
inductive CbOutcome
  | abort
  | waits
  | returned
deriving DecidableEq

/-- Embeds the playback `audio_callback` (synth mode): abort when stopped, wait
while paused, return without touching the buffer on the output-underflow
status (the assignment `outdata = ... * len(outdata)` rebinds the local name
and does not write the buffer), abort on an empty queue (`get_nowait` — the
callback never blocks on data), otherwise write the dequeued block,
zero-padding a short block. Returns the outcome, the contents written to the
output buffer (`none` when the buffer is left unwritten), and the remaining
queue. -/
def audio_callback_model (state : PlaybackState) (underflow : Bool)
    (q : List (List ℚ)) (outLen : ℕ) :
    CbOutcome × Option (List ℚ) × List (List ℚ) :=
  if state = PlaybackState.STOPPED then (CbOutcome.abort, none, q)
  else if state = PlaybackState.PAUSED then (CbOutcome.waits, none, q)
  else if underflow then (CbOutcome.returned, none, q)
  else
    match q with
    | [] => (CbOutcome.abort, none, [])
    | data :: rest =>
      if data.length < outLen then
        (CbOutcome.returned,
         some (data ++ List.replicate (outLen - data.length) 0), rest)
      else (CbOutcome.returned, some data, rest)

/-- C4 counterexample: with the queue empty (state `PLAYING`, no underflow
status flag) the callback raises the callback-abort signal but does NOT fill
the output buffer with silence — the buffer is left unwritten, contradicting
the claim that it both fills silence and aborts. -/
theorem callback_empty_queue_no_silence :
    audio_callback_model PlaybackState.PLAYING false [] 4
      = (CbOutcome.abort, none, []) ∧
    (none : Option (List ℚ)) ≠ some (List.replicate 4 (0 : ℚ)) := by
  exact ⟨rfl, by decide⟩

/-- C4 amended: when the block queue is empty the playback callback raises the
callback-abort signal and returns without writing the output buffer; it
dequeues with `get_nowait`, so it never blocks waiting for data, but no
silence is written on this path. -/
theorem callback_empty_queue_aborts (outLen : ℕ) :
    audio_callback_model PlaybackState.PLAYING false [] outLen
      = (CbOutcome.abort, none, []) :=
  rfl

/-- The cursor advance of the synth branch:
`next_t = min(t + blocktime, duration) if duration is not None else t + blocktime`. -/
def synth_next (dur : Option ℚ) (blocktime t : ℚ) : ℚ :=
  match dur with
  | some d => min (t + blocktime) d
  | none => t + blocktime

/-- The loop-break test `sound.duration is not None and t >= sound.duration`. -/
def duration_reached (dur : Option ℚ) (t : ℚ) : Bool :=
  match dur with
  | some d => decide (d ≤ t)
  | none => false

/-- Embeds the audio-queue pre-fill loop of `play` in synth mode, for a nominal
uninterrupted session (the state stays `PLAYING`, so the pause/stop checks
between synthesis and enqueueing never fire, and with the default buffer size
`put_nowait` never raises). Each of the at most `bufsize` iterations
synthesizes the block `[t, next_t)` and then — only when the duration is not
yet reached, because the break precedes the enqueue — enqueues its
`num_samples` sample count. Returns the synthesis calls made, the enqueued
block lengths, and the final cursor. -/
def prefill : ℕ → Option ℚ → ℚ → ℕ → ℚ → List (ℚ × ℚ) × List ℕ × ℚ
  | 0, _, _, _, t => ([], [], t)
  | k + 1, dur, blocktime, samplerate, t =>
    let next := synth_next dur blocktime t
    let n := num_samples t next samplerate
    if duration_reached dur next then ([(t, next)], [], next)
    else
      let rest := prefill k dur blocktime samplerate next
      ((t, next) :: rest.1, n :: rest.2.1, rest.2.2)

/-- Embeds the producer loop (`while True`) of `play` in synth mode, for a
nominal uninterrupted session; as in the code, the duration break happens
after the synthesis call but before the enqueue, so the final block is
synthesized but never enqueued. The loop is unrolled with explicit fuel and
returns `none` if the fuel runs out before the duration is reached. -/
def producer : ℕ → Option ℚ → ℚ → ℕ → ℚ → Option (List (ℚ × ℚ) × List ℕ)
  | 0, _, _, _, _ => none
  | fuel + 1, dur, blocktime, samplerate, t =>
    let next := synth_next dur blocktime t
    let n := num_samples t next samplerate
    if duration_reached dur next then some ([(t, next)], [])
    else
      (producer fuel dur blocktime samplerate next).map
        fun rest => ((t, next) :: rest.1, n :: rest.2)

/-- A whole nominal synth playback session: `blocktime = blocksize / samplerate`,
cursor starting at `t = 0`, the pre-fill loop followed by the producer loop.
Returns all synthesis calls and all enqueued block lengths. -/
def synth_session (bufsize fuel : ℕ) (dur : Option ℚ)
    (blocksize samplerate : ℕ) : Option (List (ℚ × ℚ) × List ℕ) :=
  let blocktime : ℚ := (blocksize : ℚ) / (samplerate : ℚ)
  let pre := prefill bufsize dur blocktime samplerate 0
  (producer fuel dur blocktime samplerate pre.2.2).map
    fun prod => (pre.1 ++ prod.1, pre.2.1 ++ prod.2)

set_option maxRecDepth 4000

/-- C8: for a descriptor with `duration = 1.0` at `samplerate = 8000` and the
plugin defaults (`blocksize = 2048`, `bufsize = 20`), the session enqueues
6144 samples in total — within one block (2048) of the nominal 8000, the
final 1856-sample block being synthesized but dropped by the break that
precedes the enqueue — and every synthesis call is clamped to
`t_end ≤ duration`. -/
theorem play_synth_session_samples :
    synth_session 20 50 (some 1) 2048 8000 =
      some ([(0, 32 / 125), (32 / 125, 64 / 125), (64 / 125, 96 / 125),
             (96 / 125, 1), (1, 1)],
            [2048, 2048, 2048]) ∧
    ([2048, 2048, 2048] : List ℕ).sum = 6144 ∧
    6144 ≤ 8000 ∧ 8000 - 6144 ≤ 2048 ∧
    ∀ p ∈ ([(0, 32 / 125), (32 / 125, 64 / 125), (64 / 125, 96 / 125),
            (96 / 125, 1), (1, 1)] : List (ℚ × ℚ)), p.2 ≤ 1 := by
  refine ⟨?_, by decide, by decide, by decide, ?_⟩
  · norm_num [synth_session, prefill, producer, synth_next, duration_reached,
      num_samples, pyIntQ, min_def]
    decide
  · intro p hp
    fin_cases hp <;> norm_num

/-- C8 witness: the clamping conclusion applied at the concrete synthesis call
`(96/125, 1)` of the session. -/
theorem play_synth_session_samples_witness :
    (((96 : ℚ) / 125, (1 : ℚ)) ∈
      ([(0, 32 / 125), (32 / 125, 64 / 125), (64 / 125, 96 / 125),
        (96 / 125, 1), (1, 1)] : List (ℚ × ℚ))) ∧
    ((96 : ℚ) / 125, (1 : ℚ)).2 ≤ 1 :=
  ⟨by norm_num,
   play_synth_session_samples.2.2.2.2 (96 / 125, 1) (by norm_num)⟩

/-- A filesystem: a partial map from paths to file contents. -/
def FileSystem : Type := String → Option String

/-- Embeds the file-preparation step of `record`:
`if os.path.isfile(file): os.unlink(file)` — the target path is removed when a
file already exists there, before the sink is created. -/
def record_prepare_file (file : String) (fs : FileSystem) : FileSystem :=
  if (fs file).isSome then fun p => if p = file then none else fs p else fs

/-- C10: whenever `record` is given a path at which a file already exists, the
preparation step deletes that file — afterwards nothing exists at the path,
so the pre-existing content is never preserved or appended to — and no other
path is affected. -/
theorem record_overwrites_existing_file (fs : FileSystem)
    (file content : String) (h : fs file = some content) :
    record_prepare_file file fs file = none ∧
    ∀ p, p ≠ file → record_prepare_file file fs p = fs p := by
  constructor
  · unfold record_prepare_file
    rw [h]
    simp
  · intro p hp
    unfold record_prepare_file
    rw [h]
    simp [hp]

/-- A one-file filesystem used as the witness input. -/
def fsA : FileSystem :=
  fun p => if p = "recording.wav" then some "old-data" else none

/-- C10 witness: the theorem applied to the concrete one-file filesystem. -/
theorem record_overwrites_existing_file_witness :
    fsA "recording.wav" = some "old-data" ∧
    (record_prepare_file "recording.wav" fsA "recording.wav" = none ∧
     ∀ p, p ≠ "recording.wav" →
       record_prepare_file "recording.wav" fsA p = fsA p) :=
  ⟨rfl, record_overwrites_existing_file fsA "recording.wav" "old-data" rfl⟩

end Platypush
